import Mathlib

/-!
Shallow embedding of the OnePulse mini-app registration flow
(src/components/RegistrationFlow.tsx, first revision in the file, which is
the authoritative one, and src/utils/getDeviceInfo.ts), together with
theorems settling the specification claims about it.

JavaScript runtime values that matter to the claims are modelled explicitly:
`Option` stands for possibly-undefined values, truthiness of strings is the
test against the empty string, and JSON payloads are a small inductive value
type so that field names and number-versus-string typing are observable.
-/

namespace OnePulse

/-- Model of a JSON value as produced by JSON.stringify on the payload
objects: field order in an object follows the object literal's insertion
order in the source. -/
inductive Json where
  | null : Json
  | bool : Bool → Json
  | num : Int → Json
  | str : String → Json
  | arr : List Json → Json
  | obj : List (String × Json) → Json
deriving Repr

/-- Lookup of a top-level field of a JSON object; none for non-objects or
missing keys. -/
def Json.lookup : Json → String → Option Json
  | .obj fields, key => go fields key
  | _, _ => none
where
  go : List (String × Json) → String → Option Json
    | [], _ => none
    | (k, v) :: rest, key => if k = key then some v else go rest key

/-- Top-level key list of a JSON object, in serialization order. -/
def Json.keys : Json → List String
  | .obj fields => fields.map (fun f => f.fst)
  | _ => []

/-- JS `a || b` on a possibly-undefined string: the empty string is falsy,
so both undefined and "" fall through to the default. -/
def jsOrStr (a : Option String) (b : String) : String :=
  match a with
  | some s => if s = "" then b else s
  | none => b

/-- JS `a || b` on a possibly-undefined boolean: undefined and false both
give b when b is the literal false this is just `getD`. -/
def jsOrBool (a : Option Bool) (b : Bool) : Bool :=
  match a with
  | some true => true
  | some false => b
  | none => b

/-- JS `a || b` on a possibly-undefined number: undefined and 0 are falsy. -/
def jsOrNum (a : Option Int) (b : Int) : Int :=
  match a with
  | some n => if n = 0 then b else n
  | none => b

/-- JS `a ?? b` (nullish coalescing) on possibly-undefined values: only
null/undefined falls through; an empty string does not. -/
def jsCoalesce {α : Type} (a b : Option α) : Option α :=
  match a with
  | some x => some x
  | none => b

/-- JS truthiness of a possibly-undefined string ("" and undefined falsy). -/
def jsTruthyStr (a : Option String) : Bool :=
  match a with
  | some s => s ≠ ""
  | none => false

/-- Case-sensitive check that the second list is an initial segment of the
first, used for substring search (String.indexOf !== -1 in the source). -/
def listStartsWith : List Char → List Char → Bool
  | _, [] => true
  | [], _ :: _ => false
  | c :: cs, d :: ds => c == d && listStartsWith cs ds

/-- Case-sensitive substring containment, modelling `s.indexOf(t) !== -1`. -/
def strHasSub (hay needle : String) : Bool :=
  go hay.data needle.data
where
  go : List Char → List Char → Bool
    | [], n => listStartsWith [] n
    | c :: cs, n => listStartsWith (c :: cs) n || go cs n

/-- Case-insensitive substring containment, modelling a case-insensitive
regex test such as /Mobi|Android/i against one alternative. -/
def strHasSubCI (hay needle : String) : Bool :=
  strHasSub (hay.map Char.toLower) (needle.map Char.toLower)

-- === Identity model (RegistrationFlow.tsx lines 9-17, 85-93) ===

/-- Normalized Telegram user as the component stores it. The id is an
Option because the runtime data the component casts to this shape may lack
the field; the source's type annotation does not enforce presence. -/
structure TelegramUser where
  id : Option Int
  firstName : String
  lastName : Option String
  username : Option String
  languageCode : Option String
  photoUrl : Option String
  isPremium : Option Bool
deriving DecidableEq, Repr

/-- Raw snake_case user object from the host object or URL payload
(UnsafeTelegramUser in the source). -/
structure UnsafeUser where
  id : Option Int
  first_name : String
  last_name : Option String
  username : Option String
  language_code : Option String
  photo_url : Option String
  is_premium : Option Bool
deriving DecidableEq, Repr

/-- Field-name normalization of a possibly-undefined raw user
(mapUnsafeUser in the source): undefined maps to undefined, any object maps
to a normalized record, with no check that an id is present. -/
def mapUnsafeUser : Option UnsafeUser → Option TelegramUser
  | none => none
  | some u => some {
      id := u.id
      firstName := u.first_name
      lastName := u.last_name
      username := u.username
      languageCode := u.language_code
      photoUrl := u.photo_url
      isPremium := u.is_premium }

/-- Which of the three identity sources produced the user
(DebugDetails.initDataSource: 'sdk' | 'unsafe' | 'url'). -/
inductive Source where
  | sdk
  | hostObj
  | url
deriving DecidableEq, Repr

/-- Result of retrieveLaunchParams when it does not throw: the (already
camelCase) user from params.initData, and params.initDataRaw when that
value was a string. -/
structure SdkResult where
  user : Option TelegramUser
  initDataRaw : Option String
deriving DecidableEq, Repr

/-- The global window.Telegram.WebApp object when present: the snake_case
user under initDataUnsafe.user and the raw init data string. -/
structure WebAppObj where
  unsafeUser : Option UnsafeUser
  initData : Option String
deriving DecidableEq, Repr

/-- Outcome of parseUserFromInitDataString on a present URL init-data
string. URLSearchParams and JSON.parse are host builtins, so the
environment carries their observable outcome: parse failure or a missing
user parameter collapses to `fail` (the source returns undefined from its
catch and from the missing-parameter check); a successfully parsed user
object is `ok`. -/
inductive UrlParse where
  | fail
  | ok : UnsafeUser → UrlParse
deriving DecidableEq, Repr

/-- Environment of the initial identity check: the three candidate sources
exactly as the source consults them. sdk = none models
retrieveLaunchParams throwing (caught and ignored). urlInitData is the
result of getInitDataFromUrl (a read of window.location). -/
structure CheckEnv where
  sdk : Option SdkResult
  hasWindow : Bool
  webApp : Option WebAppObj
  urlInitData : Option String
  urlUserParse : UrlParse
deriving DecidableEq, Repr

/-- Parsed user from the URL init-data string, modelling
parseUserFromInitDataString(getInitDataFromUrl()): undefined input gives
undefined; otherwise the parse outcome, normalized. -/
def urlParsedUser (env : CheckEnv) : Option TelegramUser :=
  match env.urlInitData with
  | none => none
  | some _ =>
    match env.urlUserParse with
    | .fail => none
    | .ok u => mapUnsafeUser (some u)

/-- SDK-source user (initData.user after a non-throwing retrieve). -/
def sdkUserOf (env : CheckEnv) : Option TelegramUser :=
  match env.sdk with
  | some p => p.user
  | none => none

/-- SDK-source raw init data (params.initDataRaw when a string). -/
def sdkRawOf (env : CheckEnv) : Option String :=
  match env.sdk with
  | some p => p.initDataRaw
  | none => none

/-- Host-object user (window.Telegram.WebApp.initDataUnsafe.user). -/
def webUserOf (env : CheckEnv) : Option UnsafeUser :=
  match env.webApp with
  | some w => w.unsafeUser
  | none => none

/-- Host-object raw init data (window.Telegram.WebApp.initData). -/
def webRawOf (env : CheckEnv) : Option String :=
  match env.webApp with
  | some w => w.initData
  | none => none

/-- Result of the identity-resolution block of performCheck
(RegistrationFlow.tsx lines 200-231): the user the flow will use, the raw
init-data token, and the source label. -/
structure ResolveOut where
  user : Option TelegramUser
  initDataRaw : Option String
  source : Option Source
deriving DecidableEq, Repr

/-- Identity resolution exactly as performCheck does it: the SDK user wins
whenever it is a (truthy) object; the host-object user is consulted only
when the SDK gave none; the URL is consulted only when both gave none.
The raw token falls back sdk → webApp.initData (unconditionally inside the
window block) → URL string (only inside the no-user-yet branch). -/
def resolveIdentity (env : CheckEnv) : ResolveOut :=
  let sdkUser : Option TelegramUser := sdkUserOf env
  let raw0 : Option String := sdkRawOf env
  let src0 : Option Source := if sdkUser.isSome then some .sdk else none
  if env.hasWindow then
    let unsafeUser : Option UnsafeUser := webUserOf env
    let step1 : Option TelegramUser × Option Source :=
      match sdkUser, unsafeUser with
      | none, some u => (mapUnsafeUser (some u), some .hostObj)
      | t, _ => (t, src0)
    let raw1 := jsCoalesce raw0 (webRawOf env)
    match step1.fst with
    | none =>
      let parsed := urlParsedUser env
      let step2 : Option TelegramUser × Option Source :=
        match parsed with
        | some p => (some p, some .url)
        | none => (none, step1.snd)
      let raw2 := jsCoalesce raw1 env.urlInitData
      { user := step2.fst, initDataRaw := raw2, source := step2.snd }
    | some t => { user := some t, initDataRaw := raw1, source := step1.snd }
  else
    { user := sdkUser, initDataRaw := raw0, source := src0 }

-- === Device fingerprint collector (src/utils/getDeviceInfo.ts) ===

/-- Coarse geolocation sub-record of the device record. -/
structure GeoLocation where
  city : String
  country : String
  lat : String
  lon : String
deriving DecidableEq, Repr

/-- Fixed-shape device record (DeviceInfoPayload in the source). -/
structure DeviceInfoPayload where
  app_version : String
  cpu_cores : Int
  device_id : String
  device_type : String
  fingerprint : String
  geo_location : GeoLocation
  ip_address : String
  locale : String
  os_name : String
  os_version : String
  pixel_ratio : Int
  screen_resolution : String
  timezone : String
  touch_support : Bool
  user_agent : String
  viewport_height : Int
deriving DecidableEq, Repr

/-- Body shape returned by the ipapi.co lookup; every field is optional
because the code replaces its default record wholesale with whatever JSON
the service returned and then applies || defaults field by field. -/
structure IpJson where
  ip : Option String
  city : Option String
  country_name : Option String
  latitude : Option Int
  longitude : Option Int
deriving DecidableEq, Repr

/-- Browser/network environment read by getDeviceInfo. ipFetch models the
guarded fetch of https://ipapi.co/json/: none when the request rejected
(network error, CORS, or the 2-second AbortController timeout — all end in
the .catch that yields null); some (ok, body) when a response arrived,
with ok = response.ok and body = none when response.json() threw. -/
structure DeviceEnv where
  hasWindow : Bool
  ipFetch : Option (Bool × Option IpJson)
  userAgent : String
  maxTouchPoints : Option Int
  hardwareConcurrency : Option Int
  language : Option String
  screenWidth : Int
  screenHeight : Int
  devicePixelRatio : Option Int
  innerHeight : Int
  timezone : String
  storedDeviceId : Option String
  randomUUID : Option String
  fallbackRandomId : String
deriving DecidableEq, Repr

/-- Base64 alphabet used by btoa. -/
def b64Alphabet : List Char :=
  "ABCDEFGHIJKLMNOPQRSTUVWXYZabcdefghijklmnopqrstuvwxyz0123456789+/".data

/-- Symbol of the base64 alphabet at an index. -/
def b64Char (n : Nat) : Char := b64Alphabet.getD n 'A'

/-- Base64 encoding of a byte list, as btoa produces it (with = padding). -/
def b64Encode : List Nat → String
  | [] => ""
  | [a] =>
    String.mk [b64Char (a / 4), b64Char (a % 4 * 16), '=', '=']
  | [a, b] =>
    String.mk [b64Char (a / 4), b64Char (a % 4 * 16 + b / 16),
      b64Char (b % 16 * 4), '=']
  | a :: b :: c :: rest =>
    String.mk [b64Char (a / 4), b64Char (a % 4 * 16 + b / 16),
      b64Char (b % 16 * 4 + c / 64), b64Char (c % 64)] ++ b64Encode rest

/-- btoa on a string of Latin-1 code points. -/
def btoa (s : String) : String :=
  b64Encode (s.data.map Char.toNat)

/-- Stable device id (getOrGenerateDeviceId in the source): empty without a
window; else the localStorage value when truthy, else a fresh id from
crypto.randomUUID when that function exists, else the Math.random-based
fallback. -/
def getOrGenerateDeviceId (env : DeviceEnv) : String :=
  if env.hasWindow then
    match env.storedDeviceId with
    | some id =>
      if id = "" then
        match env.randomUUID with
        | some u => u
        | none => env.fallbackRandomId
      else id
    | none =>
      match env.randomUUID with
      | some u => u
      | none => env.fallbackRandomId
  else ""

/-- OS-name guess from the user agent (getOS in the source): the first
matching substring in the fixed chain wins; the version is always the
constant "Unknown" in this revision. -/
def getOS (userAgent : String) : String × String :=
  let name :=
    if strHasSub userAgent "Win" then "Windows"
    else if strHasSub userAgent "Mac" then "MacOS"
    else if strHasSub userAgent "Linux" then "Linux"
    else if strHasSub userAgent "Android" then "Android"
    else if strHasSub userAgent "like Mac" then "iOS"
    else "Unknown"
  (name, "Unknown")

/-- Default ipData record the code starts from before the guarded fetch. -/
def ipDefault : IpJson :=
  { ip := some "0.0.0.0", city := some "Unknown", country_name := some "Unknown",
    latitude := some 0, longitude := some 0 }

/-- Device-fingerprint collection (getDeviceInfo in the source). Throws
(Except.error) only without a window; any failure of the ip lookup leaves
the default ipData in place. The touch_support field is the literal true
from the source (the computed hasTouch value, kept here as _hasTouch, is
dead code in this revision). -/
def getDeviceInfo (env : DeviceEnv) : Except String DeviceInfoPayload :=
  if env.hasWindow then
    let ipData : IpJson :=
      match env.ipFetch with
      | none => ipDefault
      | some (ok, body) =>
        if ok then
          match body with
          | some j => j
          | none => ipDefault
        else ipDefault
    let ua := env.userAgent
    let osInfo := getOS ua
    let deviceId := getOrGenerateDeviceId env
    let _hasTouch : Bool := jsOrNum env.maxTouchPoints 0 > 0
    Except.ok {
      app_version := "1.0.0"
      cpu_cores := jsOrNum env.hardwareConcurrency 2
      device_id := deviceId
      device_type :=
        if strHasSubCI ua "Mobi" || strHasSubCI ua "Android" then "mobile"
        else "desktop"
      fingerprint :=
        (btoa (deviceId ++ "-" ++ ua ++ "-" ++ toString env.screenWidth)).take 16
      geo_location := {
        city := jsOrStr ipData.city "Unknown"
        country := jsOrStr ipData.country_name "Unknown"
        lat := toString (jsOrNum ipData.latitude 0)
        lon := toString (jsOrNum ipData.longitude 0) }
      ip_address := jsOrStr ipData.ip "0.0.0.0"
      locale := jsOrStr env.language "en-US"
      os_name := osInfo.fst
      os_version := osInfo.snd
      pixel_ratio := jsOrNum env.devicePixelRatio 1
      screen_resolution := toString env.screenWidth ++ "x" ++ toString env.screenHeight
      timezone := env.timezone
      touch_support := true
      user_agent := ua
      viewport_height := env.innerHeight }
  else Except.error "Device info can only be fetched on the client side"

/-- JSON serialization of the device record, key order as in the returned
object literal. -/
def deviceInfoJson (d : DeviceInfoPayload) : Json :=
  Json.obj [
    ("app_version", .str d.app_version),
    ("cpu_cores", .num d.cpu_cores),
    ("device_id", .str d.device_id),
    ("device_type", .str d.device_type),
    ("fingerprint", .str d.fingerprint),
    ("geo_location", Json.obj [
      ("city", .str d.geo_location.city),
      ("country", .str d.geo_location.country),
      ("lat", .str d.geo_location.lat),
      ("lon", .str d.geo_location.lon)]),
    ("ip_address", .str d.ip_address),
    ("locale", .str d.locale),
    ("os_name", .str d.os_name),
    ("os_version", .str d.os_version),
    ("pixel_ratio", .num d.pixel_ratio),
    ("screen_resolution", .str d.screen_resolution),
    ("timezone", .str d.timezone),
    ("touch_support", .bool d.touch_support),
    ("user_agent", .str d.user_agent),
    ("viewport_height", .num d.viewport_height)]

-- === Request payloads (RegistrationFlow.tsx lines 20-68, 248-381) ===

/-- telegram_id field serialized as a JSON number (CheckIdPayload,
ShareContactPayload). JSON.stringify omits an undefined field, so a missing
id produces no key at all. -/
def idNumField (id : Option Int) : List (String × Json) :=
  match id with
  | some n => [("telegram_id", .num n)]
  | none => []

/-- telegram_id field serialized as a JSON string via id.toString()
(DeviceSessionPayload, SimVerifyPayload, VerifyCodePayload,
ResendCodePayload, VerifyCustomerPayload). In JS a missing id would make
id.toString() throw a TypeError; every scenario below reaches these
payloads only with a present id, so the missing-id branch, kept total here
as an omitted field, is never exercised. -/
def idStrField (id : Option Int) : List (String × Json) :=
  match id with
  | some n => [("telegram_id", .str (toString n))]
  | none => []

/-- firstName with every non-ASCII-letter removed
(firstName.replace of the non-alphabetic character class with ""). -/
def stripNonAlpha (s : String) : String :=
  String.mk (s.data.filter Char.isAlpha)

/-- CheckIdPayload construction (performCheck, lines 248-261). -/
def checkIdPayload (u : TelegramUser) : Json :=
  Json.obj ([
    ("allowed_financial_actions", Json.arr [.str "ALL"]),
    ("customer_profile", Json.obj [("avatar", .str "")]),
    ("first_name", .str (let f := stripNonAlpha u.firstName
                         if f = "" then "User" else f)),
    ("is_bot_user", .bool true),
    ("is_premium", .bool (jsOrBool u.isPremium false)),
    ("kyc_status", .str "PENDING"),
    ("language_code", .str (jsOrStr u.languageCode "en")),
    ("last_name", .str (jsOrStr u.lastName "")),
    ("phone_number", .str ""),
    ("registration_status", .str "SELF")] ++
    idNumField u.id ++
    [("username", .str (jsOrStr u.username ""))])

/-- ShareContactPayload construction (handlePhoneSubmit, lines 294-297). -/
def shareContactPayload (phone : String) (u : TelegramUser) : Json :=
  Json.obj ([("phone_number", .str phone)] ++ idNumField u.id)

/-- DeviceSessionPayload construction (handlePhoneSubmit, lines 305-309). -/
def deviceSessionPayload (info : DeviceInfoPayload) (phone : String)
    (u : TelegramUser) : Json :=
  Json.obj ([("device_info", deviceInfoJson info),
    ("phone_number", .str phone)] ++ idStrField u.id)

/-- SimVerifyPayload construction (handlePhoneSubmit, lines 314-318). -/
def simVerifyPayload (info : DeviceInfoPayload) (phone : String)
    (u : TelegramUser) : Json :=
  Json.obj ([("device_fingerprint", .str info.fingerprint),
    ("phone_number", .str phone)] ++ idStrField u.id)

/-- VerifyCodePayload construction (handleOtpSubmit, lines 339-343). -/
def verifyCodePayload (code phone : String) (u : TelegramUser) : Json :=
  Json.obj ([("activation_code", .str code),
    ("phone_number", .str phone)] ++ idStrField u.id)

/-- ResendCodePayload construction (handleResendCode, lines 357-360). -/
def resendCodePayload (phone : String) (u : TelegramUser) : Json :=
  Json.obj ([("phone_number", .str phone)] ++ idStrField u.id)

/-- VerifyCustomerPayload construction (handleAccountSubmit, lines
376-381); device_id comes from the cached device record. -/
def verifyCustomerPayload (account deviceId phone : String)
    (u : TelegramUser) : Json :=
  Json.obj ([("account_number", .str account),
    ("device_id", .str deviceId),
    ("phone_number", .str phone)] ++ idStrField u.id)

-- === Component state and fetch wrapper ===

/-- UI step enumeration (AppStatus in the source). -/
inductive AppStatus where
  | idle
  | checking
  | idVerified
  | phoneEntry
  | processingRegistration
  | otpEntry
  | verifyingOtp
  | accountEntry
  | verifyingCustomer
  | completed
  | error
  | invalidEnvironment
deriving DecidableEq, Repr

/-- Diagnostic record set once during performCheck (DebugDetails). -/
structure DebugDetails where
  initDataSource : Option Source
  initDataRawPreview : Option String
  user : Option TelegramUser
deriving DecidableEq, Repr

/-- Component state: one field per useState hook plus the hasChecked ref.
This is the Session Context of the specification — note it has no field for
a failure step, a session id, a customer id or a product code. -/
structure FlowState where
  status : AppStatus
  loadingMessage : String
  errorMessage : String
  debugDetails : Option DebugDetails
  phoneNumber : String
  activationCode : String
  accountNumber : String
  currentUser : Option TelegramUser
  initDataRawString : Option String
  cachedDeviceInfo : Option DeviceInfoPayload
  hasChecked : Bool
deriving DecidableEq, Repr

/-- Initial hook values of a freshly mounted component. -/
def initState : FlowState :=
  { status := .idle
    loadingMessage := "Processing..."
    errorMessage := ""
    debugDetails := none
    phoneNumber := ""
    activationCode := ""
    accountNumber := ""
    currentUser := none
    initDataRawString := none
    cachedDeviceInfo := none
    hasChecked := false }

/-- Backend outcome of one POST, supplied by the environment: a successful
response with a JSON body; a non-ok response carrying the parse result of
its body's message field (none when the body was unparsable or had no
message) and the transport statusText; or a rejected fetch whose error
message is the given string. -/
inductive CallOutcome where
  | ok : Json → CallOutcome
  | httpError : Option String → String → CallOutcome
  | netError : String → CallOutcome
deriving Repr

/-- Oracle assigning an outcome to the n-th backend call of a run. -/
def Oracle : Type := Nat → CallOutcome

/-- One issued request: relative path, JSON payload, and the value of the
X-Telegram-Init header when it was attached. -/
structure CallRecord where
  path : String
  payload : Json
  auth : Option String
deriving Repr

/-- Error message thrown by authenticatedFetch for a non-ok response:
errorData.message when truthy, else the "Request failed" text built from
statusText. -/
def httpErrorMessage (serverMessage : Option String) (statusText : String) :
    String :=
  match serverMessage with
  | some m => if m = "" then "Request failed: " ++ statusText else m
  | none => "Request failed: " ++ statusText

/-- authenticatedFetch (lines 164-184) given the initDataRawString visible
to the closure: records the call, attaches the init header when the token
is truthy, and either returns the body or throws the computed message. -/
def fetchCall (raw : Option String) (oracle : Oracle) (k : Nat)
    (path : String) (payload : Json) :
    Except String Json × CallRecord × Nat :=
  let rec0 : CallRecord :=
    { path := path, payload := payload
      auth := if jsTruthyStr raw then raw else none }
  match oracle k with
  | .ok body => (Except.ok body, rec0, k + 1)
  | .httpError m stat => (Except.error (httpErrorMessage m stat), rec0, k + 1)
  | .netError m => (Except.error m, rec0, k + 1)

/-- Result of running one event: new state, calls issued by it in order,
and the next oracle index. -/
structure StepOut where
  state : FlowState
  calls : List CallRecord
  next : Nat
deriving Repr

/-- An event that issues no call. -/
def noCall (st : FlowState) (k : Nat) : StepOut :=
  { state := st, calls := [], next := k }

-- === Handlers (RegistrationFlow.tsx lines 186-390) ===

/-- Relative path of the identity-check endpoint. -/
def checkIdPath : String := "/api/v1/customers/checkTelegramID"

/-- performCheck (lines 197-273). React state setters do not change the
bindings the running closure reads, so the authenticatedFetch inside this
very invocation still sees the initDataRawString of the render that
created it — the value in the incoming state, not the one just computed.
The setters are threaded into the final state as usual. -/
def performCheck (env : CheckEnv) (oracle : Oracle) (k : Nat)
    (st : FlowState) : StepOut :=
  let rawAtRender := st.initDataRawString
  let st1 := { st with status := .checking, loadingMessage := "Verifying Account..." }
  let res := resolveIdentity env
  let st2 := { st1 with debugDetails := some {
    user := res.user
    initDataSource := res.source
    initDataRawPreview :=
      match res.initDataRaw with
      | some s => if s = "" then none else some (s.take 80 ++ "...")
      | none => none } }
  match res.user with
  | none => noCall { st2 with status := .invalidEnvironment } k
  | some u =>
    let st3 := { st2 with currentUser := some u, initDataRawString := res.initDataRaw }
    let (r, c, k1) := fetchCall rawAtRender oracle k checkIdPath (checkIdPayload u)
    match r with
    | .ok _ => { state := { st3 with status := .idVerified }, calls := [c], next := k1 }
    | .error m =>
      { state := { st3 with
          errorMessage := if m = "" then "Unknown error occurred" else m
          status := .error }
        calls := [c], next := k1 }

/-- Mount effect (lines 187-276): a missing backend URL is a fatal error
surfaced before the single-fire guard; otherwise the hasChecked ref makes
the identity check run at most once per component lifetime. -/
def mountEffect (backendConfigured : Bool) (env : CheckEnv) (oracle : Oracle)
    (k : Nat) (st : FlowState) : StepOut :=
  if backendConfigured then
    if st.hasChecked then noCall st k
    else performCheck env oracle k { st with hasChecked := true }
  else
    noCall { st with
             status := .error
             errorMessage := "The backend URL is not configured correctly." } k

/-- handleContinueToPhone (lines 279-281). -/
def handleContinueToPhone (st : FlowState) : FlowState :=
  { st with status := .phoneEntry }

/-- handlePhoneSubmit (lines 284-329): guards, then share-contact, device
info collection, device-session-start and SIM-Verify strictly in sequence;
the first failure aborts the rest and sets the error state. -/
def handlePhoneSubmit (denv : DeviceEnv) (oracle : Oracle) (k : Nat)
    (st : FlowState) : StepOut :=
  match st.currentUser with
  | none => noCall st k
  | some u =>
    if st.phoneNumber = "" then noCall st k
    else if st.phoneNumber.length < 5 then noCall st k
    else
      let st1 := { st with
                   status := .processingRegistration
                   loadingMessage := "Saving Contact Info..." }
      let (r1, c1, k1) := fetchCall st.initDataRawString oracle k
        "/api/v1/customers/share-contact" (shareContactPayload st.phoneNumber u)
      match r1 with
      | .error m =>
        { state := { st1 with errorMessage := m, status := .error }
          calls := [c1], next := k1 }
      | .ok _ =>
        let st2 := { st1 with loadingMessage := "Initializing Secure Session..." }
        match getDeviceInfo denv with
        | .error m =>
          { state := { st2 with errorMessage := m, status := .error }
            calls := [c1], next := k1 }
        | .ok info =>
          let st3 := { st2 with cachedDeviceInfo := some info }
          let (r2, c2, k2) := fetchCall st.initDataRawString oracle k1
            "/api/v1/device-session-start"
            (deviceSessionPayload info st.phoneNumber u)
          match r2 with
          | .error m =>
            { state := { st3 with errorMessage := m, status := .error }
              calls := [c1, c2], next := k2 }
          | .ok _ =>
            let st4 := { st3 with loadingMessage := "Verifying Device Security..." }
            let (r3, c3, k3) := fetchCall st.initDataRawString oracle k2
              "/api/v1/SIM-Verify" (simVerifyPayload info st.phoneNumber u)
            match r3 with
            | .error m =>
              { state := { st4 with errorMessage := m, status := .error }
                calls := [c1, c2, c3], next := k3 }
            | .ok _ =>
              { state := { st4 with status := .otpEntry }
                calls := [c1, c2, c3], next := k3 }

/-- handleOtpSubmit (lines 332-352). -/
def handleOtpSubmit (oracle : Oracle) (k : Nat) (st : FlowState) : StepOut :=
  match st.currentUser with
  | none => noCall st k
  | some u =>
    let st1 := { st with status := .verifyingOtp, loadingMessage := "Verifying Code..." }
    let (r, c, k1) := fetchCall st.initDataRawString oracle k
      "/api/v1/verifyCode" (verifyCodePayload st.activationCode st.phoneNumber u)
    match r with
    | .ok _ => { state := { st1 with status := .accountEntry }, calls := [c], next := k1 }
    | .error m =>
      { state := { st1 with errorMessage := m, status := .error }
        calls := [c], next := k1 }

/-- handleResendCode (lines 354-366): both outcomes only alert; the step
state is unchanged either way. -/
def handleResendCode (oracle : Oracle) (k : Nat) (st : FlowState) : StepOut :=
  match st.currentUser with
  | none => noCall st k
  | some u =>
    let (_, c, k1) := fetchCall st.initDataRawString oracle k
      "/api/v1/resendCode" (resendCodePayload st.phoneNumber u)
    { state := st, calls := [c], next := k1 }

/-- handleAccountSubmit (lines 369-390). -/
def handleAccountSubmit (oracle : Oracle) (k : Nat) (st : FlowState) : StepOut :=
  match st.currentUser, st.cachedDeviceInfo with
  | some u, some info =>
    let st1 := { st with
                 status := .verifyingCustomer
                 loadingMessage := "Linking Bank Account..." }
    let (r, c, k1) := fetchCall st.initDataRawString oracle k
      "/api/v1/verifyCustomer"
      (verifyCustomerPayload st.accountNumber info.device_id st.phoneNumber u)
    match r with
    | .ok _ => { state := { st1 with status := .completed }, calls := [c], next := k1 }
    | .error m =>
      { state := { st1 with errorMessage := m, status := .error }
        calls := [c], next := k1 }
  | _, _ => noCall st k

-- === Event driver and rendered actions ===

/-- Externally triggerable events: the mount effect, the input onChange
setters, the rendered buttons and form submissions, and the error screen's
Retry (whose onClick is window.location.reload). -/
inductive Event where
  | mount
  | setPhone : String → Event
  | setCode : String → Event
  | setAccount : String → Event
  | continueToPhone
  | submitPhone
  | submitOtp
  | resendCode
  | submitAccount
  | retryReload
deriving DecidableEq, Repr

/-- Buttons and submissions the rendered screen of each status offers
(lines 393-621): the invalid-environment, loading and completed screens
offer none (the completed screen's button has no onClick), the error
screen offers exactly Retry. -/
def offeredButtons : AppStatus → List Event
  | .idVerified => [.continueToPhone]
  | .phoneEntry => [.submitPhone]
  | .otpEntry => [.submitOtp, .resendCode]
  | .accountEntry => [.submitAccount]
  | .error => [.retryReload]
  | _ => []

/-- Whether an event can fire in a status: the mount effect always can;
an input setter only while its input is rendered; a button or submission
only while offered. -/
def eventAllowed (s : AppStatus) : Event → Bool
  | .mount => true
  | .setPhone _ => s = .phoneEntry
  | .setCode _ => s = .otpEntry
  | .setAccount _ => s = .accountEntry
  | .continueToPhone => s = .idVerified
  | .submitPhone => s = .phoneEntry
  | .submitOtp => s = .otpEntry
  | .resendCode => s = .otpEntry
  | .submitAccount => s = .accountEntry
  | .retryReload => s = .error

/-- Effect of one event, unguarded. Retry reloads the page, which discards
the component and all its state: the flow restarts as a fresh mount from
the initial hook values (the hasChecked ref is a new ref of the new
component instance). -/
def applyEvent (cfg : Bool) (cenv : CheckEnv) (denv : DeviceEnv)
    (oracle : Oracle) (k : Nat) (st : FlowState) : Event → StepOut
  | .mount => mountEffect cfg cenv oracle k st
  | .setPhone s => noCall { st with phoneNumber := s } k
  | .setCode s => noCall { st with activationCode := s } k
  | .setAccount s => noCall { st with accountNumber := s } k
  | .continueToPhone => noCall (handleContinueToPhone st) k
  | .submitPhone => handlePhoneSubmit denv oracle k st
  | .submitOtp => handleOtpSubmit oracle k st
  | .resendCode => handleResendCode oracle k st
  | .submitAccount => handleAccountSubmit oracle k st
  | .retryReload => mountEffect cfg cenv oracle k initState

/-- Effect of one event as the UI permits it: an event whose trigger is
not rendered in the current status cannot fire and changes nothing. -/
def stepEvent (cfg : Bool) (cenv : CheckEnv) (denv : DeviceEnv)
    (oracle : Oracle) (k : Nat) (st : FlowState) (e : Event) : StepOut :=
  if eventAllowed st.status e then applyEvent cfg cenv denv oracle k st e
  else noCall st k

/-- Accumulated result of an event sequence. -/
structure RunResult where
  state : FlowState
  calls : List CallRecord
  next : Nat
deriving Repr

/-- Run of a list of events from a given state, accumulating issued calls. -/
def runFrom (cfg : Bool) (cenv : CheckEnv) (denv : DeviceEnv)
    (oracle : Oracle) : List Event → FlowState → Nat → RunResult
  | [], st, k => { state := st, calls := [], next := k }
  | e :: rest, st, k =>
    let out := stepEvent cfg cenv denv oracle k st e
    let tail := runFrom cfg cenv denv oracle rest out.state out.next
    { state := tail.state, calls := out.calls ++ tail.calls, next := tail.next }

/-- Run of a list of events on a freshly mounted component. -/
def runEvents (cfg : Bool) (cenv : CheckEnv) (denv : DeviceEnv)
    (oracle : Oracle) (events : List Event) : RunResult :=
  runFrom cfg cenv denv oracle events initState 0

-- === Concrete scenarios used by the claim theorems ===

/-- A well-formed SDK user for the concrete runs. -/
def aliceSdkUser : TelegramUser :=
  { id := some 1, firstName := "Alice", lastName := none, username := none,
    languageCode := none, photoUrl := none, isPremium := none }

/-- Environment whose SDK source yields a usable identity and a raw
init-data token; the other sources are empty. -/
def happyCheckEnv : CheckEnv :=
  { sdk := some { user := some aliceSdkUser, initDataRaw := some "raw-token" }
    hasWindow := true
    webApp := none
    urlInitData := none
    urlUserParse := .fail }

/-- A concrete browser environment for device-fingerprint collection. -/
def testDeviceEnv : DeviceEnv :=
  { hasWindow := true
    ipFetch := some (true, some {
      ip := some "1.2.3.4"
      city := some "Nairobi"
      country_name := some "Kenya"
      latitude := some 1
      longitude := some 36 })
    userAgent := "TestAgent Linux"
    maxTouchPoints := some 0
    hardwareConcurrency := some 4
    language := some "en-US"
    screenWidth := 400
    screenHeight := 800
    devicePixelRatio := some 2
    innerHeight := 700
    timezone := "Africa/Nairobi"
    storedDeviceId := some "dev-1"
    randomUUID := none
    fallbackRandomId := "fallback-id" }

/-- Oracle on which every backend call succeeds with an empty object. -/
def allOk : Oracle := fun _ => .ok (.obj [])

/-- The full happy-path event sequence the user can actually perform:
mount, continue past the verified-id screen, then phone, code and account
submissions with the concrete inputs of the specification's test. The
specification's PIN submission has no counterpart event because the
component has no PIN step. -/
def happyEvents : List Event :=
  [.mount, .continueToPhone, .setPhone "+10000000", .submitPhone,
   .setCode "123456", .submitOtp, .setAccount "1000111", .submitAccount]

/-- The happy-path run. -/
def happyRun : RunResult :=
  runEvents true happyCheckEnv testDeviceEnv allOk happyEvents

/-- Paths of the six endpoints in the order the happy path issues them. -/
def happyPaths : List String :=
  [checkIdPath, "/api/v1/customers/share-contact", "/api/v1/device-session-start",
   "/api/v1/SIM-Verify", "/api/v1/verifyCode", "/api/v1/verifyCustomer"]

/-- Oracle failing exactly the fourth call (index 3, the SIM-Verify call of
the phone step) with a server-provided message. -/
def simFailOracle : Oracle := fun k =>
  if k = 3 then .httpError (some "SIM mismatch") "Bad Request" else .ok (.obj [])

/-- Events up to and including the phone submission. -/
def phoneEvents : List Event :=
  [.mount, .continueToPhone, .setPhone "+10000000", .submitPhone]

/-- Run in which the SIM-Verify call fails. -/
def simFailRun : RunResult :=
  runEvents true happyCheckEnv testDeviceEnv simFailOracle phoneEvents

/-- Oracle failing exactly the fifth call (index 4, the verifyCode call). -/
def otpFailOracle : Oracle := fun k =>
  if k = 4 then .httpError (some "wrong code") "Unauthorized" else .ok (.obj [])

/-- Events up to and including the code submission. -/
def otpEvents : List Event :=
  [.mount, .continueToPhone, .setPhone "+10000000", .submitPhone,
   .setCode "123456", .submitOtp]

/-- Run in which the code-verification call fails. -/
def otpFailRun : RunResult :=
  runEvents true happyCheckEnv testDeviceEnv otpFailOracle otpEvents

/-- The same failing run followed by the error screen's Retry. -/
def otpFailThenRetryRun : RunResult :=
  runEvents true happyCheckEnv testDeviceEnv otpFailOracle
    (otpEvents ++ [.retryReload])

/-- Oracle with chosen response bodies for the device-session-start call
(index 2) and the verifyCustomer call (index 5), all calls succeeding. -/
def bodiesOracle (sessionBody customerBody : Json) : Oracle := fun k =>
  if k = 2 then .ok sessionBody
  else if k = 5 then .ok customerBody
  else .ok (.obj [])

/-- An id-less user object: the malformed-but-truthy data of claim C4. -/
def idlessUser : UnsafeUser :=
  { id := none, first_name := "Mallory", last_name := none, username := none,
    language_code := none, photo_url := none, is_premium := none }

/-- A proper host-object user with id 42. -/
def hostUser42 : UnsafeUser :=
  { id := some 42, first_name := "Bob", last_name := none, username := none,
    language_code := none, photo_url := none, is_premium := none }

/-- Environment where the SDK yields a user object without an id while the
host object carries a fully usable user. -/
def idlessFirstEnv : CheckEnv :=
  { sdk := some { user := mapUnsafeUser (some idlessUser), initDataRaw := none }
    hasWindow := true
    webApp := some { unsafeUser := some hostUser42, initData := none }
    urlInitData := none
    urlUserParse := .fail }

/-- Environment where no source yields any user object but the URL carries
an init-data string (whose user payload does not parse). -/
def tokenOnlyEnv : CheckEnv :=
  { sdk := none
    hasWindow := true
    webApp := none
    urlInitData := some "query_id=abc123"
    urlUserParse := .fail }

/-- The SIM-failure run followed by the error screen's Retry. -/
def simFailThenRetryRun : RunResult :=
  runEvents true happyCheckEnv testDeviceEnv simFailOracle
    (phoneEvents ++ [.retryReload])

/-- Oracle failing exactly the third call (index 2, device-session-start). -/
def sessionFailOracle : Oracle := fun k =>
  if k = 2 then .httpError none "Server Error" else .ok (.obj [])

/-- Run in which the device-session-start call fails. -/
def sessionFailRun : RunResult :=
  runEvents true happyCheckEnv testDeviceEnv sessionFailOracle phoneEvents

/-- Payload field of the i-th issued call of a run. -/
def payloadFieldAt (r : RunResult) (i : Nat) (key : String) : Option Json :=
  match r.calls.get? i with
  | some c => c.payload.lookup key
  | none => none

/-- Whether the guarded ip lookup of getDeviceInfo failed: the fetch
rejected (network error or 2-second abort), the response was non-ok, or
its body was unparsable. -/
def ipLookupFailed (e : DeviceEnv) : Bool :=
  match e.ipFetch with
  | none => true
  | some (ok, body) => !ok || body.isNone

/-- Device environment whose ip lookup rejects at the network level. -/
def failingIpDeviceEnv : DeviceEnv :=
  { testDeviceEnv with ipFetch := none }

/-- A concrete device record used when a theorem over arbitrary records is
instantiated in a witness. -/
def sampleDeviceInfo : DeviceInfoPayload :=
  { app_version := "1.0.0", cpu_cores := 2, device_id := "d", device_type := "desktop",
    fingerprint := "f", geo_location := { city := "c", country := "k", lat := "0", lon := "0" },
    ip_address := "0.0.0.0", locale := "en", os_name := "Linux", os_version := "Unknown",
    pixel_ratio := 1, screen_resolution := "1x1", timezone := "UTC", touch_support := true,
    user_agent := "ua", viewport_height := 1 }

/-- State of a freshly mounted component right after the single-fire guard
ref has been set. -/
def checkedInit : FlowState := { initState with hasChecked := true }

-- ======================= Theorems =======================

/-- C10: every execution of device-fingerprint collection in a window
context returns a record whose touch_support field is true, regardless of
the environment's navigator.maxTouchPoints, so consumers of the record
cannot distinguish touch from non-touch devices through this field. -/
theorem touchSupportAlwaysTrue (env : DeviceEnv) (h : env.hasWindow = true) :
    ∃ r, getDeviceInfo env = Except.ok r ∧ r.touch_support = true := by
  unfold getDeviceInfo
  rw [h]
  exact ⟨_, rfl, rfl⟩

/-- C10 witness: the theorem applied to a concrete environment that
reports zero touch points. -/
theorem touchSupportAlwaysTrueWitness :
    ∃ r, getDeviceInfo testDeviceEnv = Except.ok r ∧ r.touch_support = true :=
  touchSupportAlwaysTrue testDeviceEnv rfl

/-- C8: when the geolocation sub-lookup of device-fingerprint collection
fails (rejected fetch — network error or the 2-second abort —, non-ok
response, or unparsable body), collection still returns a complete record
whose geolocation fields carry the default values, instead of raising. -/
theorem geoDefaultsOnLookupFailure (env : DeviceEnv) (hw : env.hasWindow = true)
    (hf : ipLookupFailed env = true) :
    ∃ r, getDeviceInfo env = Except.ok r ∧
      r.geo_location = { city := "Unknown", country := "Unknown", lat := "0", lon := "0" } ∧
      r.ip_address = "0.0.0.0" := by
  unfold getDeviceInfo
  rw [hw]
  rcases hip : env.ipFetch with _ | ⟨ok, body⟩
  · exact ⟨_, rfl, rfl, rfl⟩
  · cases ok
    · exact ⟨_, rfl, rfl, rfl⟩
    · have hb : body = none := by
        simp [ipLookupFailed, hip] at hf
        exact hf
      rw [hb]
      exact ⟨_, rfl, rfl, rfl⟩

/-- C8 witness: the theorem applied to the environment whose lookup
rejects at the network level. -/
theorem geoDefaultsOnLookupFailureWitness :
    ∃ r, getDeviceInfo failingIpDeviceEnv = Except.ok r ∧
      r.geo_location = { city := "Unknown", country := "Unknown", lat := "0", lon := "0" } ∧
      r.ip_address = "0.0.0.0" :=
  geoDefaultsOnLookupFailure failingIpDeviceEnv rfl rfl

/-- C9: for every payload the sequencer sends, the telegram id is
serialized as a JSON number for the identity-check and share-contact
endpoints and as a JSON string for device-session-start, SIM-Verify,
verifyCode, resendCode and verifyCustomer, and the snake_case keys of
every payload are exactly those of the existing contract, in order. -/
theorem telegramIdSerializationPerEndpoint (u : TelegramUser) (uid : Int)
    (h : u.id = some uid) (phone code acct devId : String) (info : DeviceInfoPayload) :
    (checkIdPayload u).lookup "telegram_id" = some (.num uid) ∧
    (shareContactPayload phone u).lookup "telegram_id" = some (.num uid) ∧
    (deviceSessionPayload info phone u).lookup "telegram_id" = some (.str (toString uid)) ∧
    (simVerifyPayload info phone u).lookup "telegram_id" = some (.str (toString uid)) ∧
    (verifyCodePayload code phone u).lookup "telegram_id" = some (.str (toString uid)) ∧
    (resendCodePayload phone u).lookup "telegram_id" = some (.str (toString uid)) ∧
    (verifyCustomerPayload acct devId phone u).lookup "telegram_id" =
      some (.str (toString uid)) ∧
    (checkIdPayload u).keys = ["allowed_financial_actions", "customer_profile",
      "first_name", "is_bot_user", "is_premium", "kyc_status", "language_code",
      "last_name", "phone_number", "registration_status", "telegram_id", "username"] ∧
    (shareContactPayload phone u).keys = ["phone_number", "telegram_id"] ∧
    (deviceSessionPayload info phone u).keys =
      ["device_info", "phone_number", "telegram_id"] ∧
    (simVerifyPayload info phone u).keys =
      ["device_fingerprint", "phone_number", "telegram_id"] ∧
    (verifyCodePayload code phone u).keys =
      ["activation_code", "phone_number", "telegram_id"] ∧
    (resendCodePayload phone u).keys = ["phone_number", "telegram_id"] ∧
    (verifyCustomerPayload acct devId phone u).keys =
      ["account_number", "device_id", "phone_number", "telegram_id"] := by
  obtain ⟨id0, f1, f2, f3, f4, f5, f6⟩ := u
  cases h
  exact ⟨rfl, rfl, rfl, rfl, rfl, rfl, rfl, rfl, rfl, rfl, rfl, rfl, rfl, rfl⟩

/-- C9 witness: the theorem applied to the concrete user of the runs. -/
theorem telegramIdSerializationPerEndpointWitness :
    aliceSdkUser.id = some 1 ∧
    (shareContactPayload "+10000000" aliceSdkUser).lookup "telegram_id" =
      some (.num 1) ∧
    (verifyCodePayload "123456" "+10000000" aliceSdkUser).lookup "telegram_id" =
      some (.str "1") :=
  ⟨rfl,
   (telegramIdSerializationPerEndpoint aliceSdkUser 1 rfl "+10000000" "123456"
     "1000111" "d" sampleDeviceInfo).2.1,
   (telegramIdSerializationPerEndpoint aliceSdkUser 1 rfl "+10000000" "123456"
     "1000111" "d" sampleDeviceInfo).2.2.2.2.1⟩

set_option maxHeartbeats 4000000 in
/-- C2 counterexample: from a fresh Session Context the executable happy
path (identity resolves, user continues, phone "+10000000", code "123456"
and account "1000111" submitted, every backend call succeeding) issues six
successful backend calls, not five — the identity check is one of them —
and it terminates in completed with no further submission offered: the
component has no PIN step at all. -/
theorem happyPathFiveCallsFalse :
    happyRun.calls.length = 6 ∧ happyRun.calls.length ≠ 5 ∧
    happyRun.state.status = .completed ∧ offeredButtons .completed = [] :=
  ⟨rfl, by decide, rfl, rfl⟩

set_option maxHeartbeats 4000000 in
/-- C2 amended: the happy path from a fresh Session Context issues exactly
six successful backend calls in the order identity check, share-contact,
device-session-start, SIM-Verify, verifyCode, verifyCustomer, and leaves
the sequencer in completed; there is no PIN submission. -/
theorem happyPathSixCallsCompleted :
    happyRun.state.status = .completed ∧
    happyRun.calls.map (fun c => c.path) = happyPaths ∧
    happyRun.calls.length = 6 :=
  ⟨rfl, rfl, rfl⟩

set_option maxHeartbeats 4000000 in
/-- C7 counterexample: two happy-path runs that differ only in the bodies
returned by device-session-start and verifyCustomer produce identical run
results — the session identifier, customer id and product code of those
responses are discarded, not stored in the Session Context before the
next dependent call. -/
theorem stepResponsesDiscarded :
    runEvents true happyCheckEnv testDeviceEnv
        (bodiesOracle (.str "session-A") (.str "customer-A")) happyEvents =
      runEvents true happyCheckEnv testDeviceEnv
        (bodiesOracle (.str "session-B") (.str "customer-B")) happyEvents ∧
    ("session-A" : String) ≠ "session-B" ∧
    (runEvents true happyCheckEnv testDeviceEnv
        (bodiesOracle (.str "session-A") (.str "customer-A")) happyEvents).state =
      happyRun.state :=
  ⟨rfl, by decide, rfl⟩

set_option maxHeartbeats 4000000 in
/-- C7 amended: the only step data cached for later steps is the device
record: a happy-path run given distinguished response bodies for
device-session-start and verifyCustomer equals the reference run (the
bodies are discarded); cachedDeviceInfo is populated before the
device-session-start call is issued (it is set even in the run where that
call fails); SIM-Verify's device_fingerprint and verifyCustomer's
device_id are taken from that cached record by value. -/
theorem onlyDeviceInfoCached :
    runEvents true happyCheckEnv testDeviceEnv
        (bodiesOracle (.str "session-A") (.str "customer-A")) happyEvents =
      happyRun ∧
    (∃ info, getDeviceInfo testDeviceEnv = Except.ok info ∧
      sessionFailRun.state.cachedDeviceInfo = some info ∧
      sessionFailRun.state.status = .error ∧
      payloadFieldAt happyRun 3 "device_fingerprint" = some (.str info.fingerprint) ∧
      payloadFieldAt happyRun 5 "device_id" = some (.str info.device_id)) :=
  ⟨rfl, ⟨_, rfl, rfl, rfl, rfl, rfl⟩⟩

/-- C1 counterexample: after a failure at the code-verification step the
error screen offers exactly one action, Retry, and no back action; Retry
reloads the page, so the flow re-enters the initial identity check and
ends on the id-verified screen — not the step recorded at failure time
(the code records none), and there is no transition to the preceding
step. -/
theorem retryBackClaimFalse :
    otpFailRun.state.status = .error ∧
    offeredButtons .error = [.retryReload] ∧
    otpFailThenRetryRun.state.status = .idVerified ∧
    otpFailThenRetryRun.state.status ≠ .otpEntry ∧
    otpFailThenRetryRun.state.status ≠ .phoneEntry ∧
    otpFailThenRetryRun.calls.map (fun c => c.path) =
      happyPaths.take 5 ++ [checkIdPath] :=
  ⟨rfl, rfl, rfl, by decide, by decide, rfl⟩

/-- C1 amended: in the failed state the only offered user action is Retry;
Retry reloads the page, which discards the component state and restarts
the flow from the initial identity check: from every error state it
behaves exactly like a fresh mount, re-issuing the identity-check request
and (when that call succeeds) ending on the id-verified screen. -/
theorem retryRestartsFromIdentityCheck (st : FlowState) (h : st.status = .error)
    (k : Nat) :
    offeredButtons .error = [.retryReload] ∧
    stepEvent true happyCheckEnv testDeviceEnv allOk k st .retryReload =
      mountEffect true happyCheckEnv allOk k initState ∧
    (stepEvent true happyCheckEnv testDeviceEnv allOk k st .retryReload).state.status =
      .idVerified ∧
    (stepEvent true happyCheckEnv testDeviceEnv allOk k st .retryReload).calls.map
      (fun c => c.path) = [checkIdPath] := by
  have hg : eventAllowed st.status .retryReload = true := by rw [h]; rfl
  refine ⟨rfl, ?_, ?_, ?_⟩ <;> simp only [stepEvent, hg, if_true, applyEvent] <;> rfl

/-- C1 witness: the amended theorem applied to the concrete error state of
the failed code-verification run. -/
theorem retryRestartsFromIdentityCheckWitness :
    (stepEvent true happyCheckEnv testDeviceEnv allOk 5 otpFailRun.state
      .retryReload).state.status = .idVerified :=
  (retryRestartsFromIdentityCheck otpFailRun.state rfl 5).2.2.1

/-- C3 counterexample: when the SIM-Verify call (third call of the phone
step) fails, code verification is indeed never issued and the server
message is surfaced, but no failure step is remembered: the state only
becomes error, and the sole recovery action, Retry, restarts the flow at
the identity check (ending on id-verified), not at the phone step the
claim says was recorded. -/
theorem simFailureRememberedStepFalse :
    simFailRun.state.status = .error ∧
    simFailRun.calls.map (fun c => c.path) = happyPaths.take 4 ∧
    "/api/v1/verifyCode" ∉ happyPaths.take 4 ∧
    simFailRun.state.errorMessage = "SIM mismatch" ∧
    offeredButtons .error = [.retryReload] ∧
    simFailThenRetryRun.state.status = .idVerified ∧
    simFailThenRetryRun.state.status ≠ .phoneEntry :=
  ⟨rfl, rfl, by decide, rfl, rfl, rfl, by decide⟩

/-- C3 amended: a failure of the SIM-Verify call aborts the phone step —
code verification is never issued — and surfaces the server-provided
message when present and non-empty, else the text built from the
transport statusText; no failure step is recorded: the status becomes
error and Retry restarts from the identity check. -/
theorem simFailureAborts (m : Option String) (stat : String) :
    (runEvents true happyCheckEnv testDeviceEnv
        (fun k => if k = 3 then .httpError m stat else .ok (.obj []))
        phoneEvents).state.status = .error ∧
    (runEvents true happyCheckEnv testDeviceEnv
        (fun k => if k = 3 then .httpError m stat else .ok (.obj []))
        phoneEvents).calls.map (fun c => c.path) = happyPaths.take 4 ∧
    "/api/v1/verifyCode" ∉ happyPaths.take 4 ∧
    (runEvents true happyCheckEnv testDeviceEnv
        (fun k => if k = 3 then .httpError m stat else .ok (.obj []))
        phoneEvents).state.errorMessage = httpErrorMessage m stat ∧
    (runEvents true happyCheckEnv testDeviceEnv
        (fun k => if k = 3 then .httpError m stat else .ok (.obj []))
        (phoneEvents ++ [.retryReload])).state.status = .idVerified :=
  ⟨rfl, rfl, by decide, rfl, rfl⟩

/-- The mount effect is a no-op once the single-fire ref is set. -/
theorem mountEffect_checked (cenv : CheckEnv) (oracle : Oracle) (k : Nat)
    (st : FlowState) (h : st.hasChecked = true) :
    mountEffect true cenv oracle k st = noCall st k := by
  simp [mountEffect, h]

/-- performCheck leaves the single-fire ref set. -/
theorem performCheck_hasChecked (env : CheckEnv) (oracle : Oracle) (k : Nat) :
    (performCheck env oracle k checkedInit).state.hasChecked = true := by
  simp only [performCheck]
  rcases hres : (resolveIdentity env).user with _ | u
  · simp [hres, noCall, checkedInit, initState]
  · rcases ho : oracle k with b | ⟨ms, sts⟩ | msg <;>
      simp [hres, ho, fetchCall, checkedInit, initState]

/-- When no identity resolves, performCheck enters the unsupported
environment state, stores no token and issues no call. -/
theorem performCheck_none (env : CheckEnv) (oracle : Oracle) (k : Nat)
    (h : (resolveIdentity env).user = none) :
    (performCheck env oracle k checkedInit).calls = [] ∧
    (performCheck env oracle k checkedInit).state.status = .invalidEnvironment ∧
    (performCheck env oracle k checkedInit).state.initDataRawString = none := by
  simp [performCheck, h, noCall, checkedInit, initState]

/-- When an identity resolves, performCheck stores it with the resolved
token and issues exactly the identity-check request. -/
theorem performCheck_calls_some (env : CheckEnv) (oracle : Oracle) (k : Nat)
    (u : TelegramUser) (h : (resolveIdentity env).user = some u) :
    (performCheck env oracle k checkedInit).calls.map (fun c => c.path) =
      [checkIdPath] ∧
    (performCheck env oracle k checkedInit).state.initDataRawString =
      (resolveIdentity env).initDataRaw ∧
    (performCheck env oracle k checkedInit).state.currentUser = some u := by
  simp only [performCheck]
  rcases ho : oracle k with b | ⟨ms, sts⟩ | msg <;>
    simp [h, ho, fetchCall, checkedInit, initState]

/-- The run of a single mount event, expressed through performCheck. -/
theorem runMount_eq (cenv : CheckEnv) (denv : DeviceEnv) (oracle : Oracle) :
    runEvents true cenv denv oracle [.mount] =
      { state := (performCheck cenv oracle 0 checkedInit).state
        calls := (performCheck cenv oracle 0 checkedInit).calls ++ []
        next := (performCheck cenv oracle 0 checkedInit).next } := rfl

/-- Mount events encountered with the single-fire ref set change nothing
and issue no calls. -/
theorem runFrom_mounts_noop (cenv : CheckEnv) (denv : DeviceEnv) (oracle : Oracle)
    (n : Nat) (st : FlowState) (k : Nat) (h : st.hasChecked = true) :
    runFrom true cenv denv oracle (List.replicate n .mount) st k =
      { state := st, calls := [], next := k } := by
  induction n with
  | zero => rfl
  | succ m ih =>
    rw [List.replicate_succ]
    show runFrom true cenv denv oracle (.mount :: List.replicate m .mount) st k = _
    simp only [runFrom, stepEvent, eventAllowed, if_true, applyEvent,
      mountEffect_checked cenv oracle k st h, noCall]
    simp [ih]

/-- C6: the one-time identity check fires exactly once per component
lifetime: mount events beyond the first change nothing (the whole run of
n+1 mounts equals the run of one mount), the identity-check request is
issued exactly once whenever an identity resolves, and never more than
one call is issued by mounting. -/
theorem identityCheckSingleFire (cenv : CheckEnv) (denv : DeviceEnv)
    (oracle : Oracle) (n : Nat) :
    runEvents true cenv denv oracle (List.replicate (n + 1) .mount) =
      runEvents true cenv denv oracle [.mount] ∧
    ((resolveIdentity cenv).user.isSome = true →
      (runEvents true cenv denv oracle (List.replicate (n + 1) .mount)).calls.map
        (fun c => c.path) = [checkIdPath]) ∧
    (runEvents true cenv denv oracle [.mount]).calls.length ≤ 1 := by
  have hP := performCheck_hasChecked cenv oracle 0
  have heq : runEvents true cenv denv oracle (List.replicate (n + 1) .mount) =
      runEvents true cenv denv oracle [.mount] := by
    rw [List.replicate_succ, runMount_eq]
    show runFrom true cenv denv oracle (.mount :: List.replicate n .mount)
      initState 0 = _
    simp only [runFrom]
    rw [show stepEvent true cenv denv oracle 0 initState .mount =
      performCheck cenv oracle 0 checkedInit from rfl]
    rw [runFrom_mounts_noop cenv denv oracle n _ _ hP]
  refine ⟨heq, ?_, ?_⟩
  · intro hsome
    obtain ⟨u, hu⟩ := Option.isSome_iff_exists.mp hsome
    rw [heq, runMount_eq]
    simp [(performCheck_calls_some cenv oracle 0 u hu).1]
  · rcases hres : (resolveIdentity cenv).user with _ | u
    · rw [runMount_eq]
      simp [(performCheck_none cenv oracle 0 hres).1]
    · rw [runMount_eq]
      have h1 := (performCheck_calls_some cenv oracle 0 u hres).1
      have h2 : (performCheck cenv oracle 0 checkedInit).calls.length = 1 := by
        have := congrArg List.length h1
        simpa using this
      simp [h2]

/-- C6 witness: two rapid mount events issue exactly one identity-check
request in the concrete resolving environment. -/
theorem identityCheckSingleFireWitness :
    (runEvents true happyCheckEnv testDeviceEnv allOk
      (List.replicate 2 .mount)).calls.map (fun c => c.path) = [checkIdPath] :=
  (identityCheckSingleFire happyCheckEnv testDeviceEnv allOk 1).2.1 rfl

/-- C4 counterexample: with an id-less user object in the SDK source and a
fully usable user in the host object, resolution returns the id-less SDK
identity — id-less data is not treated as absence and the later source is
never consulted; the flow then proceeds to the identity check with a
payload that has no telegram_id field at all instead of entering the
unsupported-environment state. -/
theorem idlessUserWinsResolution :
    (resolveIdentity idlessFirstEnv).user = mapUnsafeUser (some idlessUser) ∧
    (resolveIdentity idlessFirstEnv).source = some .sdk ∧
    (resolveIdentity idlessFirstEnv).user ≠ mapUnsafeUser (some hostUser42) ∧
    (runEvents true idlessFirstEnv testDeviceEnv allOk [.mount]).state.status =
      .idVerified ∧
    payloadFieldAt (runEvents true idlessFirstEnv testDeviceEnv allOk [.mount])
      0 "telegram_id" = none :=
  ⟨rfl, rfl, by decide, rfl, rfl⟩

/-- C4 amended: resolution consults the sources in the fixed order SDK →
host object → URL, and the first source yielding any user object wins,
whether or not it carries an id; unparsable data counts as absence; the
URL source is consulted only when the first two yielded no user object;
and when no source yields a user object the sequencer enters the
unsupported-environment state without issuing any call. -/
theorem resolutionOrderAmended :
    (∀ env u, sdkUserOf env = some u → (resolveIdentity env).user = some u) ∧
    (∀ env u, env.hasWindow = true → sdkUserOf env = none → webUserOf env = some u →
      (resolveIdentity env).user = mapUnsafeUser (some u)) ∧
    (∀ env, env.hasWindow = true → sdkUserOf env = none → webUserOf env = none →
      (resolveIdentity env).user = urlParsedUser env) ∧
    (∀ env denv oracle, (resolveIdentity env).user = none →
      (runEvents true env denv oracle [.mount]).state.status =
        .invalidEnvironment ∧
      (runEvents true env denv oracle [.mount]).calls = []) := by
  refine ⟨?_, ?_, ?_, ?_⟩
  · intro env u h
    unfold resolveIdentity
    rw [h]
    by_cases hw : env.hasWindow <;> simp [hw]
  · intro env u hw h hu
    unfold resolveIdentity
    rw [h, hu, hw]
    simp [mapUnsafeUser]
  · intro env hw h1 h2
    unfold resolveIdentity
    rw [h1, h2, hw]
    cases hup : urlParsedUser env <;> simp [hup]
  · intro env denv oracle h
    rw [runMount_eq]
    have h2 := performCheck_none env oracle 0 h
    simp [h2.1, h2.2.1]

/-- C4 witness: the amended theorem applied to the concrete environments. -/
theorem resolutionOrderAmendedWitness :
    (resolveIdentity happyCheckEnv).user = some aliceSdkUser ∧
    (runEvents true tokenOnlyEnv testDeviceEnv allOk [.mount]).state.status =
      .invalidEnvironment :=
  ⟨resolutionOrderAmended.1 happyCheckEnv aliceSdkUser rfl,
   (resolutionOrderAmended.2.2.2 tokenOnlyEnv testDeviceEnv allOk rfl).1⟩

/-- C5 counterexample: in an environment whose only data is a URL-carried
init-data string (no source yields a user), the raw token is computed by
the resolution block but never retained: the mount run ends in the
unsupported-environment state with no token in the Session Context and no
request issued, contradicting capture independent of identity. -/
theorem tokenDroppedWithoutIdentity :
    (resolveIdentity tokenOnlyEnv).initDataRaw = some "query_id=abc123" ∧
    (runEvents true tokenOnlyEnv testDeviceEnv allOk [.mount]).state.status =
      .invalidEnvironment ∧
    (runEvents true tokenOnlyEnv testDeviceEnv allOk [.mount]).state.initDataRawString =
      none ∧
    (runEvents true tokenOnlyEnv testDeviceEnv allOk [.mount]).calls = [] :=
  ⟨rfl, rfl, rfl, rfl⟩

/-- C5 amended: the raw token is stored in the Session Context only when
an identity was resolved (without one the flow stops in the unsupported
environment state with nothing stored); when an identity resolves, the
stored token is the resolved one, whose fallback order is SDK first, then
the host object, and the URL string last — the URL being consulted only
when the first two sources yielded no user object. -/
theorem tokenCaptureAmended :
    (∀ env denv oracle, (resolveIdentity env).user = none →
      (runEvents true env denv oracle [.mount]).state.initDataRawString = none ∧
      (runEvents true env denv oracle [.mount]).state.status =
        .invalidEnvironment) ∧
    (∀ env denv oracle u, (resolveIdentity env).user = some u →
      (runEvents true env denv oracle [.mount]).state.initDataRawString =
        (resolveIdentity env).initDataRaw) ∧
    (∀ env s, sdkRawOf env = some s → (resolveIdentity env).initDataRaw = some s) ∧
    (∀ env, env.hasWindow = true → sdkUserOf env = none → webUserOf env = none →
      sdkRawOf env = none → webRawOf env = none →
      (resolveIdentity env).initDataRaw = env.urlInitData) := by
  refine ⟨?_, ?_, ?_, ?_⟩
  · intro env denv oracle h
    have h2 := performCheck_none env oracle 0 h
    rw [runMount_eq]
    exact ⟨h2.2.2, h2.2.1⟩
  · intro env denv oracle u h
    rw [runMount_eq]
    exact (performCheck_calls_some env oracle 0 u h).2.1
  · intro env s h
    unfold resolveIdentity
    rw [h]
    by_cases hw : env.hasWindow
    · simp only [hw, if_true, jsCoalesce]
      split <;> simp
    · simp [hw, jsCoalesce]
  · intro env hw h1 h2 h3 h4
    unfold resolveIdentity
    rw [hw, h1, h2, h3, h4]
    cases hup : urlParsedUser env <;> simp [hup, jsCoalesce]

/-- C5 witness: the amended theorem applied to the concrete environments. -/
theorem tokenCaptureAmendedWitness :
    (runEvents true tokenOnlyEnv testDeviceEnv allOk [.mount]).state.initDataRawString =
      none ∧
    (resolveIdentity happyCheckEnv).initDataRaw = some "raw-token" :=
  ⟨(tokenCaptureAmended.1 tokenOnlyEnv testDeviceEnv allOk rfl).1,
   tokenCaptureAmended.2.2.1 happyCheckEnv "raw-token" rfl⟩

end OnePulse
